import Mathlib

/-!
Shallow embedding of the blob-trigger validation-and-triage pipeline of
`src/function_app.py` (the main variant; `src/azure-function/function_app.py`
is the second variant the spec's design notes mention).

Modelling conventions:
* Library parse results (pandas, json, openpyxl) are deterministic functions of
  the raw bytes; a `Content` value packages the byte length together with the
  parse outcome each library would produce on those bytes, one field per
  format.  Validators are translated line by line from the Python source and
  consume these outcomes.
* Python mutates `result` dicts in place; here every step returns the updated
  record, which is the same data flow.
* Machine floats appear only in `size_mb`-style computations: Python computes
  `len / (1024*1024)` on a double, which is exact for every byte length below
  2^53, and `round(_, k)` / `:.1f` round the exact rational half-to-even, so
  those computations are modelled exactly on rationals/naturals.
-/

/-! ## Rule registry (`VALIDATION_RULES`) -/

def CSV_MAX_ROWS : Nat := 10000000
def CSV_MAX_COLUMNS : Nat := 500
def XLSX_MAX_ROWS : Nat := 1048576
def XLSX_MAX_COLUMNS : Nat := 500
def XLSX_MAX_SHEETS : Nat := 50
def JSON_MAX_SIZE_MB : Nat := 200
def PARQUET_MAX_SIZE_MB : Nat := 500
def TXT_MAX_SIZE_MB : Nat := 100

def STAGING_CONTAINER : String := "staging"
def REJECTED_CONTAINER : String := "rejected"
def UPLOADS_CONTAINER : String := "uploads-clientes"

/-! ## Numeric helpers

`halfEvenDiv n d` is round-to-nearest-ties-to-even of the exact rational
`n / d`, which is exactly what Python's `round` and `:.1f` perform on the
(exactly representable) double `len / 2^20`. -/

def halfEvenDiv (n d : Nat) : Nat :=
  let k := n / d
  let r := n % d
  if 2 * r < d then k
  else if d < 2 * r then k + 1
  else if k % 2 = 0 then k else k + 1

/-- `round(blob_length / (1024 * 1024), 2)` as an exact rational. -/
def sizeMbRounded (len : Nat) : ℚ := (halfEvenDiv (len * 100) 1048576 : ℚ) / 100

/-- The `{size_mb:.1f}` formatting used in the size-ceiling error messages. -/
def fmtMB1 (len : Nat) : String :=
  let t := halfEvenDiv (len * 10) 1048576
  toString (t / 10) ++ "." ++ toString (t % 10)

/-- `size_mb > rules[max_size_mb]` where `size_mb = len / 2^20` on a double:
exact for all realistic lengths, hence equivalent to `maxMB * 2^20 < len`. -/
def sizeExceeds (len maxMB : Nat) : Bool := maxMB * 1048576 < len

/-- Digit grouping of Python's `{n:,}` format, building from the reversed
digit list and inserting a comma after every third digit. -/
def commaRev : List Char → Nat → List Char
  | [], _ => []
  | c :: cs, k =>
      if k % 3 = 0 ∧ k ≠ 0 then ',' :: c :: commaRev cs (k + 1)
      else c :: commaRev cs (k + 1)

def natCommas (n : Nat) : String :=
  String.mk ((commaRev (toString n).data.reverse 0).reverse)

/-! ## The ValidationReport (`validation_result` dict) -/

structure SheetInfo where
  rows : Nat
  columns : Nat
  column_names : List String
deriving DecidableEq

/-- `result[metadata]`: set wholesale by exactly one validator per run, so a
closed sum of the per-format shapes is a faithful model of the dict. -/
inductive Metadata where
  | empty
  | csvMeta (encoding : String) (rows columns : Nat) (column_names : List String)
      (dtypes : List (String × String)) (null_percentage : ℚ) (memory_usage_mb : ℚ)
  | excelMeta (sheet_count : Nat) (sheet_names : List String) (total_rows : Nat)
      (sheets_detail : List (String × SheetInfo))
  | jsonArray (record_count : Nat) (sample_keys : List String)
  | jsonObject (top_level_keys : List String)
  | parquetMeta (rows columns : Nat) (column_names : List String)
      (dtypes : List (String × String))
  | txtMeta (lines characters : Nat) (encoding : String)
deriving DecidableEq

/-- True exactly when the metadata carries a `sheets_detail` key (per-sheet
row information), i.e. the spreadsheet success shape. -/
def Metadata.hasSheetsDetail : Metadata → Bool
  | .excelMeta _ _ _ _ => true
  | _ => false

structure ValidationResult where
  blob_name : String
  client : String
  filename : String
  extension : String
  size_bytes : Nat
  size_mb : ℚ
  timestamp : String
  valid : Bool
  errors : List String
  warnings : List String
  metadata : Metadata
deriving DecidableEq

/-! ## Parse outcomes (deterministic library behaviour on the raw bytes) -/

/-- Outcome of the pandas CSV reads in `validate_csv`.  `noEncoding`: every
probe read (`nrows=5`) raised `UnicodeDecodeError`/`ParserError`;
`fullParseError`: a probe succeeded but the full read raised; `ok`: the full
read produced a frame.  `rawColumns` are the header names as they appear in
the file, before pandas' duplicate-name mangling.  A read raising an
exception outside the caught classes surfaces as an orchestrator-level crash
(see `process_uploaded_file`), not as a `CsvParse` value. -/
inductive CsvParse where
  | noEncoding
  | fullParseError (msg : String)
  | ok (encoding : String) (rows : Nat) (rawColumns : List String)
      (dtypes : List (String × String)) (emptyRows : Nat)
      (null_percentage : ℚ) (memory_usage_mb : ℚ)
deriving DecidableEq

/-- pandas `read_csv`/`read_excel` header deduplication (`mangle_dupe_cols`,
unconditional in pandas ≥ 1.5): the k-th repeat of a header name `c` is
renamed to `c.k`.  (Real pandas additionally bumps `k` on a collision with
another existing header; irrelevant for the inputs considered here.) -/
def pandasDedupGo : List String → List String → List String
  | [], _ => []
  | c :: cs, seen =>
      (if seen.count c = 0 then c else c ++ "." ++ toString (seen.count c))
        :: pandasDedupGo cs (seen ++ [c])

def pandasDedup (cols : List String) : List String := pandasDedupGo cols []

/-- `cols[cols.duplicated()].tolist()`: the elements equal to some earlier
element, in order (pandas `Index.duplicated`, `keep=first`). -/
def dupElems : List String → List String → List String
  | [], _ => []
  | c :: cs, seen =>
      (if seen.contains c then [c] else []) ++ dupElems cs (seen ++ [c])

structure SheetData where
  rows : Nat
  columns : Nat
  column_names : List String
deriving DecidableEq

/-- Outcome of `pd.read_excel` on one sheet: a frame, or the message of the
exception the read raised (the warning path of the loop). -/
inductive SheetRead where
  | ok (d : SheetData)
  | err (msg : String)
deriving DecidableEq

structure Sheet where
  name : String
  read : SheetRead
deriving DecidableEq

/-- Outcome of `pd.ExcelFile` on the bytes: unreadable workbook, or the
ordered sheet list with each sheet's read outcome. -/
inductive Workbook where
  | corrupt (msg : String)
  | ok (sheets : List Sheet)
deriving DecidableEq

/-- Top-level shape of a decoded JSON document.  `arr n firstKeys`: a list of
`n` elements, with `firstKeys = some ks` exactly when the list is non-empty
and its first element is a dict with key list `ks`. -/
inductive JsonData where
  | arr (record_count : Nat) (firstKeys : Option (List String))
  | obj (keys : List String)
  | other
deriving DecidableEq

/-- Outcome of the decode/parse ladder in `validate_json`: UTF-8 path
succeeds; UTF-8 raises `UnicodeDecodeError` and the latin-1 path succeeds;
the latin-1 path itself raises (any exception, caught as `Encoding não
suportado`); or UTF-8 decodes but `json.loads` raises `JSONDecodeError`. -/
inductive JsonParse where
  | utf8Ok (d : JsonData)
  | fallbackOk (d : JsonData)
  | fallbackErr (msg : String)
  | invalidJson (msg : String)
deriving DecidableEq

/-- Outcome of `pd.read_parquet` on the bytes. -/
inductive ParquetParse where
  | ok (rows columns : Nat) (column_names : List String)
      (dtypes : List (String × String))
  | err (msg : String)
deriving DecidableEq

/-- Outcome of the decode ladder in `validate_txt`: `utf8 text` when UTF-8
decodes, `latin1 text` when UTF-8 raises and latin-1 yields `text`, `fail`
when both raise (kept because the code has the branch, though a latin-1
decode of arbitrary bytes cannot fail). -/
inductive TxtDecode where
  | utf8 (text : String)
  | latin1 (text : String)
  | fail
deriving DecidableEq

/-- The raw bytes of one blob, abstracted to the length and the (functionally
determined) outcome each format's library produces on them. -/
structure Content where
  length : Nat
  csv : CsvParse
  excel : Workbook
  json : JsonParse
  parquet : ParquetParse
  txt : TxtDecode
deriving DecidableEq

/-! ## Error and warning messages (f-strings of the source) -/

def csvNoEncodingMsg : String :=
  "Não foi possível ler o CSV com encodings suportados (UTF-8, Latin-1)"

def csvParseErrMsg (msg : String) : String := "Erro ao parsear CSV: " ++ msg

def csvRowsMsg (rows : Nat) : String :=
  "CSV excede limite de " ++ natCommas CSV_MAX_ROWS ++ " linhas (" ++
    natCommas rows ++ " encontradas)"

def csvColsMsg (cols : Nat) : String :=
  "CSV excede limite de " ++ toString CSV_MAX_COLUMNS ++ " colunas (" ++
    toString cols ++ " encontradas)"

/-- `f-string` rendering of the first-5 duplicate list; `toString` on the
Lean side stands in for Python's list repr. -/
def csvDupColsMsg (ds : List String) : String :=
  "Colunas duplicadas encontradas: " ++ toString ds

def csvEmptyRowsMsg (n : Nat) : String :=
  toString n ++ " linhas completamente vazias encontradas"

def excelCorruptMsg (msg : String) : String :=
  "Arquivo Excel corrompido ou ilegível: " ++ msg

def excelSheetsMsg (n : Nat) : String :=
  "Excel excede limite de " ++ toString XLSX_MAX_SHEETS ++ " abas (" ++
    toString n ++ " encontradas)"

def excelSheetColsMsg (name : String) (cols : Nat) : String :=
  "Aba \"" ++ name ++ "\" excede " ++ toString XLSX_MAX_COLUMNS ++
    " colunas (" ++ toString cols ++ ")"

def excelSheetReadMsg (name msg : String) : String :=
  "Erro ao ler aba \"" ++ name ++ "\": " ++ msg

def excelRowsMsg (total : Nat) : String :=
  "Total de linhas (" ++ natCommas total ++ ") excede o limite (" ++
    natCommas XLSX_MAX_ROWS ++ ")"

def sizeLimitMsg (kind : String) (maxMB len : Nat) : String :=
  kind ++ " excede limite de " ++ toString maxMB ++ "MB (" ++
    fmtMB1 len ++ "MB)"

def jsonEncodingMsg (msg : String) : String := "Encoding não suportado: " ++ msg

def jsonInvalidMsg (msg : String) : String := "JSON inválido: " ++ msg

def parquetInvalidMsg (msg : String) : String :=
  "Parquet inválido ou corrompido: " ++ msg

def txtEncodingMsg : String := "Encoding não suportado"

def unsupportedExtMsg (ext : String) : String :=
  "Extensão não suportada: ." ++ ext

def internalErrMsg (msg : String) : String := "Erro interno: " ++ msg

/-! ## Validators -/

/-- `validate_csv` (src/function_app.py lines 144-200). -/
def validate_csv (p : CsvParse) (result : ValidationResult) : ValidationResult :=
  match p with
  | .noEncoding => { result with errors := result.errors ++ [csvNoEncodingMsg] }
  | .fullParseError msg =>
      { result with errors := result.errors ++ [csvParseErrMsg msg] }
  | .ok enc rows rawCols dtypes emptyRows nullPct memMB =>
      let cols := rawCols.length
      let columns := pandasDedup rawCols
      let r1 := if rows > CSV_MAX_ROWS then
          { result with errors := result.errors ++ [csvRowsMsg rows] } else result
      let r2 := if cols > CSV_MAX_COLUMNS then
          { r1 with errors := r1.errors ++ [csvColsMsg cols] } else r1
      let dups := dupElems columns []
      let r3 := if dups = [] then r2 else
          { r2 with warnings := r2.warnings ++ [csvDupColsMsg (dups.take 5)] }
      let r4 := if emptyRows > 0 then
          { r3 with warnings := r3.warnings ++ [csvEmptyRowsMsg emptyRows] } else r3
      { r4 with metadata :=
          .csvMeta enc rows cols (columns.take 50) dtypes nullPct memMB }

/-- The sheet loop of `validate_excel` (lines 222-237), carrying
`(total_rows, sheets_info, result)` through the sheets in order. -/
def excelLoop : List Sheet → Nat → List (String × SheetInfo) → ValidationResult →
    Nat × List (String × SheetInfo) × ValidationResult
  | [], total, info, r => (total, info, r)
  | s :: rest, total, info, r =>
      match s.read with
      | .ok d =>
          let r2 := if d.columns > XLSX_MAX_COLUMNS then
              { r with errors := r.errors ++ [excelSheetColsMsg s.name d.columns] }
            else r
          excelLoop rest (total + d.rows)
            (info ++ [(s.name, ⟨d.rows, d.columns, d.column_names.take 20⟩)]) r2
      | .err e =>
          excelLoop rest total info
            { r with warnings := r.warnings ++ [excelSheetReadMsg s.name e] }

/-- `validate_excel` (src/function_app.py lines 203-249). -/
def validate_excel (wb : Workbook) (result : ValidationResult) : ValidationResult :=
  match wb with
  | .corrupt msg => { result with errors := result.errors ++ [excelCorruptMsg msg] }
  | .ok sheets =>
      if sheets.length > XLSX_MAX_SHEETS then
        { result with errors := result.errors ++ [excelSheetsMsg sheets.length] }
      else
        let out := excelLoop sheets 0 [] result
        let total := out.1
        let r := out.2.2
        let r2 := if total > XLSX_MAX_ROWS then
            { r with errors := r.errors ++ [excelRowsMsg total] } else r
        { r2 with metadata :=
            .excelMeta sheets.length (sheets.map Sheet.name) total out.2.1 }

/-- Metadata assembly of `validate_json` (lines 274-284): a non-list,
non-dict top level leaves `result[metadata]` untouched. -/
def jsonMetadata (d : JsonData) (m : Metadata) : Metadata :=
  match d with
  | .arr n firstKeys => .jsonArray n ((firstKeys.getD []).take 20)
  | .obj keys => .jsonObject (keys.take 20)
  | .other => m

/-- `validate_json` (src/function_app.py lines 252-286). -/
def validate_json (len : Nat) (p : JsonParse) (result : ValidationResult) :
    ValidationResult :=
  if sizeExceeds len JSON_MAX_SIZE_MB then
    { result with errors :=
        result.errors ++ [sizeLimitMsg "JSON" JSON_MAX_SIZE_MB len] }
  else
    match p with
    | .utf8Ok d | .fallbackOk d =>
        { result with metadata := jsonMetadata d result.metadata }
    | .fallbackErr msg =>
        { result with errors := result.errors ++ [jsonEncodingMsg msg] }
    | .invalidJson msg =>
        { result with errors := result.errors ++ [jsonInvalidMsg msg] }

/-- `validate_parquet` (src/function_app.py lines 289-311). -/
def validate_parquet (len : Nat) (p : ParquetParse) (result : ValidationResult) :
    ValidationResult :=
  if sizeExceeds len PARQUET_MAX_SIZE_MB then
    { result with errors :=
        result.errors ++ [sizeLimitMsg "Parquet" PARQUET_MAX_SIZE_MB len] }
  else
    match p with
    | .ok rows cols names dtypes =>
        { result with metadata := .parquetMeta rows cols (names.take 50) dtypes }
    | .err msg =>
        { result with errors := result.errors ++ [parquetInvalidMsg msg] }

/-- `validate_txt` (src/function_app.py lines 314-339).  Note the metadata
records the literal string `utf-8` regardless of which decode succeeded. -/
def validate_txt (len : Nat) (p : TxtDecode) (result : ValidationResult) :
    ValidationResult :=
  if sizeExceeds len TXT_MAX_SIZE_MB then
    { result with errors :=
        result.errors ++ [sizeLimitMsg "TXT" TXT_MAX_SIZE_MB len] }
  else
    match p with
    | .utf8 text | .latin1 text =>
        { result with metadata :=
            Metadata.txtMeta (text.data.count '\n' + 1) text.length "utf-8" }
    | .fail => { result with errors := result.errors ++ [txtEncodingMsg] }

/-! ## Object store and `move_blob`

The store is a finite map from (container, blob name) to a content
identifier, as an association list; `upload_blob(overwrite=True)` replaces,
`delete_blob` removes.  Upload metadata tags (`validation_status` etc.) are
not modelled: no claim mentions them.  Failure injection: `uploadFails`
makes `upload_blob` raise, `deleteFails` makes `delete_blob` raise (which
also covers a delete of an absent source blob); `connected` is whether
`CONNECTION_STRING` is set (otherwise the code takes the `[DEMO]` branch and
touches nothing). -/

abbrev Loc := String × String

abbrev Store := List (Loc × Nat)

def storeGet : Store → Loc → Option Nat
  | [], _ => none
  | (k, v) :: rest, l => if k = l then some v else storeGet rest l

def storeErase : Store → Loc → Store
  | [], _ => []
  | (k, v) :: rest, l =>
      if k = l then storeErase rest l else (k, v) :: storeErase rest l

def storePut (st : Store) (l : Loc) (v : Nat) : Store := (l, v) :: storeErase st l

structure StoreEnv where
  connected : Bool
  uploadFails : Bool
  deleteFails : Bool
deriving DecidableEq

/-- `original_path.replace('uploads-clientes/', '')`. -/
def stripUploads (p : String) : String := p.replace "uploads-clientes/" ""

/-- The body of the `try` block of `move_blob` (lines 351-380): performs the
side effects in order and, on an injected failure, raises — returning the
store as mutated so far together with the exception message. -/
def move_blob_attempt (env : StoreEnv) (st : Store) (content : Nat)
    (original_path destination_container : String) : Store × Option String :=
  if env.uploadFails then (st, some "upload_blob failed")
  else
    let st1 := storePut st (destination_container, stripUploads original_path) content
    if env.deleteFails then (st1, some "delete_blob failed")
    else (storeErase st1 (UPLOADS_CONTAINER, stripUploads original_path), none)

/-- `move_blob` (src/function_app.py lines 345-383).  Result: final store,
log lines, and the exception propagated to the caller — which is always
`none`, because the function wraps its whole body in `try/except` and the
handler only logs (line 382-383).  Without a connection string the `[DEMO]`
branch returns before touching the store. -/
def move_blob (env : StoreEnv) (st : Store) (content : Nat)
    (original_path destination_container : String) :
    Store × List String × Option String :=
  if !env.connected then
    (st, ["[DEMO] Simulando move para " ++ destination_container ++ "/" ++
            original_path], none)
  else
    match move_blob_attempt env st content original_path destination_container with
    | (st2, some e) => (st2, ["Erro ao mover blob: " ++ e], none)
    | (st2, none) =>
        (st2, ["Blob movido: " ++ original_path ++ " para " ++
                 destination_container], none)

/-- `save_validation_report` (lines 386-413): persists the report once; its
own `try/except` means it never raises, so it is modelled as appending the
report to the run's emission trace. -/
def save_validation_report (emitted : List ValidationResult)
    (r : ValidationResult) : List ValidationResult := emitted ++ [r]

/-! ## Orchestrator (`process_uploaded_file`, lines 76-138) -/

/-- Identity fields extracted from the blob path (lines 86-89):
`parts = blob_name.replace('uploads-clientes/','').split('/')`. -/
def pathParts (blob_name : String) : List String :=
  (stripUploads blob_name).splitOn "/"

def extractClient (blob_name : String) : String :=
  (pathParts blob_name).headD "unknown"

def extractFilename (blob_name : String) : String :=
  (pathParts blob_name).getLastD "unknown"

/-- `filename.rsplit('.', 1)[-1].lower() if '.' in filename else ''`. -/
def extractExt (filename : String) : String :=
  if filename.contains '.' then ((filename.splitOn ".").getLastD "").toLower
  else ""

/-- The `validation_result` dict as initialised at lines 91-103. -/
def initialResult (blob_name : String) (blob_length : Nat) (timestamp : String) :
    ValidationResult :=
  { blob_name := blob_name
    client := extractClient blob_name
    filename := extractFilename blob_name
    extension := extractExt (extractFilename blob_name)
    size_bytes := blob_length
    size_mb := sizeMbRounded blob_length
    timestamp := timestamp
    valid := false
    errors := []
    warnings := []
    metadata := .empty }

/-- The per-extension dispatch (lines 110-121). -/
def runValidators (c : Content) (r : ValidationResult) : ValidationResult :=
  if r.extension = "csv" then validate_csv c.csv r
  else if r.extension = "xlsx" ∨ r.extension = "xls" then validate_excel c.excel r
  else if r.extension = "json" then validate_json c.length c.json r
  else if r.extension = "parquet" then validate_parquet c.length c.parquet r
  else if r.extension = "txt" then validate_txt c.length c.txt r
  else { r with errors := r.errors ++ [unsupportedExtMsg r.extension] }

/-- One processing run (lines 76-138).  `crash = some (r0, msg)` models an
unhandled exception with message `msg` raised inside the `try` block while
`validation_result` held `r0`; since `move_blob` and
`save_validation_report` catch all of their own exceptions, such an
exception can only arise during `blob.read()` or a validator, i.e. before
triage touches the store — the handler (lines 135-138) then appends one
`Erro interno` entry and still saves the report.  Returns the final report,
the final store, and the reports emitted via `save_validation_report`. -/
def process_uploaded_file (env : StoreEnv) (st : Store) (c : Content)
    (contentId : Nat) (blob_name : String) (blob_length : Nat)
    (timestamp : String) (crash : Option (ValidationResult × String)) :
    ValidationResult × Store × List ValidationResult :=
  match crash with
  | some (r0, msg) =>
      let r := { r0 with errors := r0.errors ++ [internalErrMsg msg] }
      (r, st, save_validation_report [] r)
  | none =>
      let vr := runValidators c (initialResult blob_name blob_length timestamp)
      if vr.errors = [] then
        let vr2 := { vr with valid := true }
        let mv := move_blob env st contentId blob_name STAGING_CONTAINER
        (vr2, mv.1, save_validation_report [] vr2)
      else
        let mv := move_blob env st contentId blob_name REJECTED_CONTAINER
        (vr, mv.1, save_validation_report [] vr)

/-! ## Shared concrete fixtures -/

def sampleTs : String := "2025-01-02T03:04:05+00:00"

def blankXlsxReport : ValidationResult :=
  initialResult "uploads-clientes/cli-00123/2025/01/02/planilha.xlsx" 2048 sampleTs

def blankJsonReport : ValidationResult :=
  initialResult "uploads-clientes/cli-00123/2025/01/02/dados.json" 524288001 sampleTs

def blankTxtReport : ValidationResult :=
  initialResult "uploads-clientes/cli-00123/2025/01/02/notas.txt" 7 sampleTs

/-! ## Claims -/

/-- C5: for every successfully parsed CSV, the row-ceiling and column-ceiling
checks are both performed and each appends its own error independently: the
final error list is the incoming one, then the row error exactly when the
row count exceeds the ceiling, then the column error exactly when the column
count exceeds the ceiling — so a file violating both limits gets both
errors, never just the first. -/
theorem c5_csv_limits_checked_independently (enc : String) (rows : Nat)
    (rawCols : List String) (dtypes : List (String × String)) (emptyRows : Nat)
    (nullPct memMB : ℚ) (r : ValidationResult) :
    (validate_csv (.ok enc rows rawCols dtypes emptyRows nullPct memMB) r).errors =
      r.errors ++ (if rows > CSV_MAX_ROWS then [csvRowsMsg rows] else []) ++
        (if rawCols.length > CSV_MAX_COLUMNS then [csvColsMsg rawCols.length]
          else []) := by
  simp only [validate_csv]
  split <;> split <;> split <;> split <;> simp

/-- C3: a spreadsheet whose sheet count exceeds the ceiling yields exactly one
new error naming the count, and the validator returns with warnings and
metadata untouched — in particular, starting from the orchestrator's empty
metadata, the output metadata carries no `sheets_detail`. -/
theorem c3_sheet_ceiling_stops_without_reading (sheets : List Sheet)
    (r : ValidationResult) (h : XLSX_MAX_SHEETS < sheets.length) :
    validate_excel (.ok sheets) r =
      { r with errors := r.errors ++ [excelSheetsMsg sheets.length] } ∧
    (r.metadata = .empty →
      (validate_excel (.ok sheets) r).metadata.hasSheetsDetail = false) := by
  have h1 : validate_excel (.ok sheets) r =
      { r with errors := r.errors ++ [excelSheetsMsg sheets.length] } := by
    simp [validate_excel, h]
  refine ⟨h1, fun hm => ?_⟩
  rw [h1]
  simp [hm, Metadata.hasSheetsDetail]

def c3Sheets : List Sheet := List.replicate 51 ⟨"Plan1", .ok ⟨1, 1, ["c"]⟩⟩

/-- C3 witness: a 51-sheet workbook (one above the ceiling) at the concrete
blank spreadsheet report. -/
theorem c3_witness :
    XLSX_MAX_SHEETS < c3Sheets.length ∧
    (validate_excel (.ok c3Sheets) blankXlsxReport =
      { blankXlsxReport with errors :=
          blankXlsxReport.errors ++ [excelSheetsMsg c3Sheets.length] } ∧
    (blankXlsxReport.metadata = .empty →
      (validate_excel (.ok c3Sheets) blankXlsxReport).metadata.hasSheetsDetail =
        false)) :=
  ⟨by decide, c3_sheet_ceiling_stops_without_reading c3Sheets blankXlsxReport
    (by decide)⟩

/-- C6: a JSON, parquet or plain-text payload whose byte length exceeds its
format's size ceiling makes the validator append the single size error and
return at once, leaving warnings and metadata exactly as they were — no
decode outcome is consulted (the parse-outcome argument is arbitrary). -/
theorem c6_size_ceiling_rejects_before_decode (c : Content)
    (r : ValidationResult) :
    (sizeExceeds c.length JSON_MAX_SIZE_MB = true →
      validate_json c.length c.json r =
        { r with errors :=
            r.errors ++ [sizeLimitMsg "JSON" JSON_MAX_SIZE_MB c.length] }) ∧
    (sizeExceeds c.length PARQUET_MAX_SIZE_MB = true →
      validate_parquet c.length c.parquet r =
        { r with errors :=
            r.errors ++ [sizeLimitMsg "Parquet" PARQUET_MAX_SIZE_MB c.length] }) ∧
    (sizeExceeds c.length TXT_MAX_SIZE_MB = true →
      validate_txt c.length c.txt r =
        { r with errors :=
            r.errors ++ [sizeLimitMsg "TXT" TXT_MAX_SIZE_MB c.length] }) := by
  refine ⟨fun h => ?_, fun h => ?_, fun h => ?_⟩
  · simp [validate_json, h]
  · simp [validate_parquet, h]
  · simp [validate_txt, h]

/-- A payload exactly one byte above the parquet ceiling (and so also above
the JSON and TXT ceilings). -/
def oversizedContent : Content :=
  { length := 500 * 1048576 + 1
    csv := .noEncoding
    excel := .ok []
    json := .utf8Ok .other
    parquet := .ok 1 1 ["c"] []
    txt := .utf8 "x" }

/-- C6 witness: the one-byte-over payload at the concrete blank JSON
report. -/
theorem c6_witness :
    (sizeExceeds oversizedContent.length JSON_MAX_SIZE_MB = true ∧
     sizeExceeds oversizedContent.length PARQUET_MAX_SIZE_MB = true ∧
     sizeExceeds oversizedContent.length TXT_MAX_SIZE_MB = true) ∧
    (validate_json oversizedContent.length oversizedContent.json blankJsonReport =
      { blankJsonReport with errors := blankJsonReport.errors ++
          [sizeLimitMsg "JSON" JSON_MAX_SIZE_MB oversizedContent.length] } ∧
     validate_parquet oversizedContent.length oversizedContent.parquet
        blankJsonReport =
      { blankJsonReport with errors := blankJsonReport.errors ++
          [sizeLimitMsg "Parquet" PARQUET_MAX_SIZE_MB oversizedContent.length] } ∧
     validate_txt oversizedContent.length oversizedContent.txt blankJsonReport =
      { blankJsonReport with errors := blankJsonReport.errors ++
          [sizeLimitMsg "TXT" TXT_MAX_SIZE_MB oversizedContent.length] }) :=
  ⟨⟨by decide, by decide, by decide⟩,
    (c6_size_ceiling_rejects_before_decode oversizedContent blankJsonReport).1
      (by decide),
    (c6_size_ceiling_rejects_before_decode oversizedContent blankJsonReport).2.1
      (by decide),
    (c6_size_ceiling_rejects_before_decode oversizedContent blankJsonReport).2.2
      (by decide)⟩

/-- C10: a plain-text payload within the size ceiling that decodes only via
the latin-1 fallback still gets `encoding` recorded as the literal string
`utf-8`, while the line and character counts are computed from the
fallback-decoded text; errors and warnings are untouched. -/
theorem c10_txt_fallback_mislabels_encoding (len : Nat) (text : String)
    (r : ValidationResult) (h : sizeExceeds len TXT_MAX_SIZE_MB = false) :
    validate_txt len (.latin1 text) r =
      { r with metadata :=
          Metadata.txtMeta (text.data.count '\n' + 1) text.length "utf-8" } := by
  simp [validate_txt, h]

/-- C10 witness: a 7-byte latin-1-only payload at the concrete blank TXT
report. -/
theorem c10_witness :
    sizeExceeds 7 TXT_MAX_SIZE_MB = false ∧
    validate_txt 7 (.latin1 "ol\ndia") blankTxtReport =
      { blankTxtReport with
        metadata :=
          Metadata.txtMeta ("ol\ndia".data.count '\n' + 1) "ol\ndia".length
            "utf-8" } :=
  ⟨by decide, c10_txt_fallback_mislabels_encoding 7 "ol\ndia" blankTxtReport
    (by decide)⟩

/-- C2 counterexample: a triage run whose copy step fails.  The source blob
is indeed left untouched (the store is unchanged), but the second claimed
half is false: `move_blob` returns normally — the propagated-exception
component is `none`, not an error — because its catch-all handler swallows
every store failure after logging it. -/
theorem c2_counterexample :
    (move_blob ⟨true, true, false⟩ [((UPLOADS_CONTAINER, "cli/a.csv"), 7)] 7
        "uploads-clientes/cli/a.csv" STAGING_CONTAINER).2.2 = none ∧
    (move_blob ⟨true, true, false⟩ [((UPLOADS_CONTAINER, "cli/a.csv"), 7)] 7
        "uploads-clientes/cli/a.csv" STAGING_CONTAINER).1 =
      [((UPLOADS_CONTAINER, "cli/a.csv"), 7)] :=
  ⟨rfl, rfl⟩

/-- C2 (amended): when the copy step of a connected triage run fails, the
source object is left untouched and no partial destination write is left
behind (the store is returned unchanged), and the failure is logged — but it
is caught inside `move_blob` and does not propagate to the caller. -/
theorem c2_copy_failure_logged_and_swallowed (env : StoreEnv) (st : Store)
    (content : Nat) (path dest : String) (hconn : env.connected = true)
    (hup : env.uploadFails = true) :
    move_blob env st content path dest =
      (st, ["Erro ao mover blob: upload_blob failed"], none) := by
  simp [move_blob, move_blob_attempt, hconn, hup]

/-- C2 witness: the amended statement at a concrete failing store. -/
theorem c2_witness :
    (⟨true, true, false⟩ : StoreEnv).connected = true ∧
    (⟨true, true, false⟩ : StoreEnv).uploadFails = true ∧
    move_blob ⟨true, true, false⟩ [((UPLOADS_CONTAINER, "b/c.txt"), 3)] 3
        "uploads-clientes/b/c.txt" REJECTED_CONTAINER =
      ([((UPLOADS_CONTAINER, "b/c.txt"), 3)],
        ["Erro ao mover blob: upload_blob failed"], none) :=
  ⟨rfl, rfl, c2_copy_failure_logged_and_swallowed ⟨true, true, false⟩
    [((UPLOADS_CONTAINER, "b/c.txt"), 3)] 3 "uploads-clientes/b/c.txt"
    REJECTED_CONTAINER rfl rfl⟩

/-- The `"a,a,b\n1,2,3\n"` fixture: one data row, raw header names
`a`, `a`, `b`; pandas dtypes as `read_csv` reports them, no empty rows. -/
def aabParse : CsvParse :=
  .ok "utf-8" 1 ["a", "a", "b"]
    [("a", "int64"), ("a.1", "int64"), ("b", "int64")] 0 0 0

def aabReport : ValidationResult :=
  initialResult "uploads-clientes/cli-00123/2025/01/02/f.csv" 12 sampleTs

/-! ## Closed forms for the spreadsheet sheet loop -/

/-- One column-ceiling error per readable sheet whose column count exceeds
the ceiling, in sheet order. -/
def readableColsErrors (sheets : List Sheet) : List String :=
  sheets.filterMap fun s =>
    match s.read with
    | .ok d =>
        if d.columns > XLSX_MAX_COLUMNS then
          some (excelSheetColsMsg s.name d.columns)
        else none
    | .err _ => none

/-- One warning per unreadable sheet, in sheet order. -/
def unreadableWarnings (sheets : List Sheet) : List String :=
  sheets.filterMap fun s =>
    match s.read with
    | .ok _ => none
    | .err e => some (excelSheetReadMsg s.name e)

/-- Total row count accumulated over the readable sheets only. -/
def readableTotalRows (sheets : List Sheet) : Nat :=
  (sheets.filterMap fun s =>
    match s.read with
    | .ok d => some d.rows
    | .err _ => none).sum

/-- The `sheets_info` entries: one per readable sheet, in sheet order. -/
def readableDetail (sheets : List Sheet) : List (String × SheetInfo) :=
  sheets.filterMap fun s =>
    match s.read with
    | .ok d => some (s.name, ⟨d.rows, d.columns, d.column_names.take 20⟩)
    | .err _ => none

theorem excelLoop_spec (sheets : List Sheet) : ∀ (total : Nat)
    (info : List (String × SheetInfo)) (r : ValidationResult),
    excelLoop sheets total info r =
      (total + readableTotalRows sheets, info ++ readableDetail sheets,
        { r with
          errors := r.errors ++ readableColsErrors sheets,
          warnings := r.warnings ++ unreadableWarnings sheets }) := by
  induction sheets with
  | nil =>
      intro total info r
      simp [excelLoop, readableTotalRows, readableDetail, readableColsErrors,
        unreadableWarnings]
  | cons s rest ih =>
      intro total info r
      cases hr : s.read with
      | ok d =>
          simp only [excelLoop, hr, readableTotalRows, readableDetail,
            readableColsErrors, unreadableWarnings, List.filterMap_cons] at ih ⊢
          split <;>
            simp [ih, Nat.add_assoc, List.append_assoc, List.sum_cons]
      | err e =>
          simp only [excelLoop, hr, readableTotalRows, readableDetail,
            readableColsErrors, unreadableWarnings, List.filterMap_cons] at ih ⊢
          simp [ih, List.append_assoc]

/-- C4: within the sheet ceiling, the spreadsheet validator processes every
sheet: each unreadable sheet contributes exactly one warning and is excluded
from the totals, each readable sheet over the column ceiling contributes its
own error (several possible), the accumulated row total counts readable
sheets only and is checked against the row ceiling only after all sheets,
and every readable sheet lands in `sheets_detail`. -/
theorem c4_sheets_processed_independently (sheets : List Sheet)
    (r : ValidationResult) (h : sheets.length ≤ XLSX_MAX_SHEETS) :
    validate_excel (.ok sheets) r =
      { r with
        errors := r.errors ++ readableColsErrors sheets ++
          (if readableTotalRows sheets > XLSX_MAX_ROWS then
            [excelRowsMsg (readableTotalRows sheets)] else []),
        warnings := r.warnings ++ unreadableWarnings sheets,
        metadata := Metadata.excelMeta sheets.length (sheets.map Sheet.name)
          (readableTotalRows sheets) (readableDetail sheets) } := by
  have hn : ¬ sheets.length > XLSX_MAX_SHEETS := not_lt.mpr h
  simp only [validate_excel, if_neg hn, excelLoop_spec, Nat.zero_add,
    List.nil_append]
  split <;> simp [List.append_assoc]

def c4Sheets : List Sheet :=
  [⟨"vendas", .ok ⟨2, 3, ["c1", "c2", "c3"]⟩⟩,
   ⟨"quebrada", .err "boom"⟩,
   ⟨"larga", .ok ⟨1, 501, ["d1"]⟩⟩]

/-- C4 witness: a three-sheet workbook with one readable sheet, one
unreadable sheet, and one sheet over the column ceiling. -/
theorem c4_witness :
    c4Sheets.length ≤ XLSX_MAX_SHEETS ∧
    validate_excel (.ok c4Sheets) blankXlsxReport =
      { blankXlsxReport with
        errors := blankXlsxReport.errors ++ readableColsErrors c4Sheets ++
          (if readableTotalRows c4Sheets > XLSX_MAX_ROWS then
            [excelRowsMsg (readableTotalRows c4Sheets)] else []),
        warnings := blankXlsxReport.warnings ++ unreadableWarnings c4Sheets,
        metadata := Metadata.excelMeta c4Sheets.length (c4Sheets.map Sheet.name)
          (readableTotalRows c4Sheets) (readableDetail c4Sheets) } :=
  ⟨by decide,
    c4_sheets_processed_independently c4Sheets blankXlsxReport (by decide)⟩

/-- C8: on the input `"a,a,b\n1,2,3\n"` the code emits NO duplicate-column
warning, because pandas `read_csv` renames the repeated header to `a.1`
before `columns.duplicated()` ever runs; validation still completes with no
errors and with rows = 1, columns = 3 in the metadata.  This contradicts the
claimed warning naming `a` — the duplicate check is dead code for frames
produced by `read_csv`. -/
theorem c8_no_duplicate_warning_emitted :
    pandasDedup ["a", "a", "b"] = ["a", "a.1", "b"] ∧
    dupElems (pandasDedup ["a", "a", "b"]) [] = [] ∧
    (validate_csv aabParse aabReport).warnings = [] ∧
    (validate_csv aabParse aabReport).errors = [] ∧
    (validate_csv aabParse aabReport).metadata =
      .csvMeta "utf-8" 1 3 ["a", "a.1", "b"]
        [("a", "int64"), ("a.1", "int64"), ("b", "int64")] 0 0 := by
  refine ⟨by decide, by decide, ?_, ?_, ?_⟩ <;> decide

/-! ## Timestamp independence of the validators (towards C9) -/

theorem validate_csv_timestamp (p : CsvParse) (r : ValidationResult)
    (t : String) :
    validate_csv p { r with timestamp := t } =
      { validate_csv p r with timestamp := t } := by
  cases p <;> simp only [validate_csv] <;> (repeat' split) <;> rfl

theorem validate_excel_timestamp (wb : Workbook) (r : ValidationResult)
    (t : String) :
    validate_excel wb { r with timestamp := t } =
      { validate_excel wb r with timestamp := t } := by
  cases wb with
  | corrupt msg => rfl
  | ok sheets =>
      simp only [validate_excel, excelLoop_spec]
      (repeat' split) <;> rfl

theorem validate_json_timestamp (len : Nat) (p : JsonParse)
    (r : ValidationResult) (t : String) :
    validate_json len p { r with timestamp := t } =
      { validate_json len p r with timestamp := t } := by
  simp only [validate_json]
  (repeat' split) <;> rfl

theorem validate_parquet_timestamp (len : Nat) (p : ParquetParse)
    (r : ValidationResult) (t : String) :
    validate_parquet len p { r with timestamp := t } =
      { validate_parquet len p r with timestamp := t } := by
  simp only [validate_parquet]
  (repeat' split) <;> rfl

theorem validate_txt_timestamp (len : Nat) (p : TxtDecode)
    (r : ValidationResult) (t : String) :
    validate_txt len p { r with timestamp := t } =
      { validate_txt len p r with timestamp := t } := by
  simp only [validate_txt]
  (repeat' split) <;> rfl

theorem runValidators_timestamp (c : Content) (r : ValidationResult)
    (t : String) :
    runValidators c { r with timestamp := t } =
      { runValidators c r with timestamp := t } := by
  simp only [runValidators]
  (repeat' split) <;>
    first
    | exact validate_csv_timestamp ..
    | exact validate_excel_timestamp ..
    | exact validate_json_timestamp ..
    | exact validate_parquet_timestamp ..
    | exact validate_txt_timestamp ..
    | rfl

/-- C9: running the pure validation stage twice on the same bytes (hence the
same deterministic parse outcomes) and the same blob identity, with two
different run timestamps, yields reports that agree on every field except
`timestamp`. -/
theorem c9_validation_deterministic_up_to_timestamp (c : Content)
    (blob_name : String) (blob_length : Nat) (t1 t2 : String) :
    runValidators c (initialResult blob_name blob_length t1) =
      { runValidators c (initialResult blob_name blob_length t2) with
        timestamp := t1 } := by
  have h : initialResult blob_name blob_length t1 =
      { initialResult blob_name blob_length t2 with timestamp := t1 } := rfl
  rw [h, runValidators_timestamp]

/-! ## The validators never touch `valid` (towards C1) -/

theorem validate_csv_valid (p : CsvParse) (r : ValidationResult) :
    (validate_csv p r).valid = r.valid := by
  cases p <;> simp only [validate_csv] <;> (repeat' split) <;> rfl

theorem validate_excel_valid (wb : Workbook) (r : ValidationResult) :
    (validate_excel wb r).valid = r.valid := by
  cases wb with
  | corrupt msg => rfl
  | ok sheets =>
      simp only [validate_excel, excelLoop_spec]
      (repeat' split) <;> rfl

theorem validate_json_valid (len : Nat) (p : JsonParse) (r : ValidationResult) :
    (validate_json len p r).valid = r.valid := by
  simp only [validate_json]
  (repeat' split) <;> rfl

theorem validate_parquet_valid (len : Nat) (p : ParquetParse)
    (r : ValidationResult) : (validate_parquet len p r).valid = r.valid := by
  simp only [validate_parquet]
  (repeat' split) <;> rfl

theorem validate_txt_valid (len : Nat) (p : TxtDecode) (r : ValidationResult) :
    (validate_txt len p r).valid = r.valid := by
  simp only [validate_txt]
  (repeat' split) <;> rfl

theorem runValidators_valid (c : Content) (r : ValidationResult) :
    (runValidators c r).valid = r.valid := by
  simp only [runValidators]
  (repeat' split) <;>
    first
    | exact validate_csv_valid ..
    | exact validate_excel_valid ..
    | exact validate_json_valid ..
    | exact validate_parquet_valid ..
    | exact validate_txt_valid ..
    | rfl

/-! ## Store lemmas -/

theorem storeGet_erase_ne (st : Store) (l target : Loc) (h : target ≠ l) :
    storeGet (storeErase st l) target = storeGet st target := by
  induction st with
  | nil => rfl
  | cons e rest ih =>
      obtain ⟨k, v⟩ := e
      by_cases hk : k = l
      · subst hk
        have : ¬ k = target := fun hh => h hh.symm
        simp [storeErase, storeGet, this, ih]
      · simp only [storeErase, if_neg hk, storeGet]
        split <;> simp [ih]

theorem storeGet_put_same (st : Store) (l : Loc) (v : Nat) :
    storeGet (storePut st l v) l = some v := by
  simp [storePut, storeGet]

theorem storeGet_put_ne (st : Store) (l target : Loc) (v : Nat)
    (h : target ≠ l) : storeGet (storePut st l v) target = storeGet st target := by
  have : ¬ l = target := fun hh => h hh.symm
  simp [storePut, storeGet, this, storeGet_erase_ne st l target h]

theorem staging_ne_rejected : STAGING_CONTAINER ≠ REJECTED_CONTAINER := by decide

theorem uploads_ne_staging : UPLOADS_CONTAINER ≠ STAGING_CONTAINER := by decide

theorem uploads_ne_rejected : UPLOADS_CONTAINER ≠ REJECTED_CONTAINER := by decide

/-- The store after a connected `move_blob` whose upload succeeds: the bytes
sit at the destination; the source is gone unless the delete step failed. -/
theorem move_blob_success_store (env : StoreEnv) (st : Store) (cid : Nat)
    (path dest : String) (hconn : env.connected = true)
    (hup : env.uploadFails = false) :
    (move_blob env st cid path dest).1 =
      if env.deleteFails then storePut st (dest, stripUploads path) cid
      else storeErase (storePut st (dest, stripUploads path) cid)
        (UPLOADS_CONTAINER, stripUploads path) := by
  by_cases hdel : env.deleteFails <;>
    simp [move_blob, move_blob_attempt, hconn, hup, hdel]

/-- C1: a completed processing run (no unhandled exception) on a connected
store whose destination write succeeds sets `valid` exactly when the error
list is empty at decision time, and the blob's bytes land in the staging
container exactly when the error list is empty and in the rejected container
exactly otherwise (the destination locations being initially vacant). -/
theorem c1_valid_iff_errors_empty_and_destination (env : StoreEnv) (st : Store)
    (c : Content) (cid : Nat) (blob_name : String) (blob_length : Nat)
    (ts : String) (hconn : env.connected = true) (hup : env.uploadFails = false)
    (hstag : storeGet st (STAGING_CONTAINER, stripUploads blob_name) = none)
    (hrej : storeGet st (REJECTED_CONTAINER, stripUploads blob_name) = none) :
    ((process_uploaded_file env st c cid blob_name blob_length ts none).1.valid =
        true ↔
      (process_uploaded_file env st c cid blob_name blob_length ts
          none).1.errors = []) ∧
    (storeGet (process_uploaded_file env st c cid blob_name blob_length ts
          none).2.1 (STAGING_CONTAINER, stripUploads blob_name) = some cid ↔
      (process_uploaded_file env st c cid blob_name blob_length ts
          none).1.errors = []) ∧
    (storeGet (process_uploaded_file env st c cid blob_name blob_length ts
          none).2.1 (REJECTED_CONTAINER, stripUploads blob_name) = some cid ↔
      (process_uploaded_file env st c cid blob_name blob_length ts
          none).1.errors ≠ []) := by
  have hstore := move_blob_success_store env st cid blob_name
  by_cases he :
      (runValidators c (initialResult blob_name blob_length ts)).errors = []
  · have hproc : process_uploaded_file env st c cid blob_name blob_length ts
        none =
        ({ runValidators c (initialResult blob_name blob_length ts) with
            valid := true },
          (move_blob env st cid blob_name STAGING_CONTAINER).1,
          [{ runValidators c (initialResult blob_name blob_length ts) with
              valid := true }]) := by
      simp [process_uploaded_file, he, save_validation_report]
    rw [hproc]
    have hsn : (UPLOADS_CONTAINER, stripUploads blob_name) ≠
        (STAGING_CONTAINER, stripUploads blob_name) :=
      fun hh => uploads_ne_staging (congrArg Prod.fst hh)
    have hput : storeGet (move_blob env st cid blob_name STAGING_CONTAINER).1
        (STAGING_CONTAINER, stripUploads blob_name) = some cid := by
      rw [hstore STAGING_CONTAINER hconn hup]
      by_cases hdel : env.deleteFails
      · simp [hdel, storeGet_put_same]
      · simp [hdel, storeGet_erase_ne _ _ _ hsn.symm, storeGet_put_same]
    have hrn : (UPLOADS_CONTAINER, stripUploads blob_name) ≠
        (REJECTED_CONTAINER, stripUploads blob_name) :=
      fun hh => uploads_ne_rejected (congrArg Prod.fst hh)
    have hsrn : (STAGING_CONTAINER, stripUploads blob_name) ≠
        (REJECTED_CONTAINER, stripUploads blob_name) :=
      fun hh => staging_ne_rejected (congrArg Prod.fst hh)
    have hnorej :
        storeGet (move_blob env st cid blob_name STAGING_CONTAINER).1
          (REJECTED_CONTAINER, stripUploads blob_name) = none := by
      rw [hstore STAGING_CONTAINER hconn hup]
      by_cases hdel : env.deleteFails
      · simp [hdel, storeGet_put_ne _ _ _ _ hsrn.symm, hrej]
      · simp [hdel, storeGet_erase_ne _ _ _ hrn.symm,
          storeGet_put_ne _ _ _ _ hsrn.symm, hrej]
    simp [he, hput, hnorej]
  · have hproc : process_uploaded_file env st c cid blob_name blob_length ts
        none =
        (runValidators c (initialResult blob_name blob_length ts),
          (move_blob env st cid blob_name REJECTED_CONTAINER).1,
          [runValidators c (initialResult blob_name blob_length ts)]) := by
      simp [process_uploaded_file, he, save_validation_report]
    rw [hproc]
    have hvalid :
        (runValidators c (initialResult blob_name blob_length ts)).valid =
          false := by
      rw [runValidators_valid]; rfl
    have hrn : (UPLOADS_CONTAINER, stripUploads blob_name) ≠
        (REJECTED_CONTAINER, stripUploads blob_name) :=
      fun hh => uploads_ne_rejected (congrArg Prod.fst hh)
    have hsrn : (REJECTED_CONTAINER, stripUploads blob_name) ≠
        (STAGING_CONTAINER, stripUploads blob_name) :=
      fun hh => staging_ne_rejected (congrArg Prod.fst hh).symm
    have hput : storeGet (move_blob env st cid blob_name REJECTED_CONTAINER).1
        (REJECTED_CONTAINER, stripUploads blob_name) = some cid := by
      rw [hstore REJECTED_CONTAINER hconn hup]
      have hun : (UPLOADS_CONTAINER, stripUploads blob_name) ≠
          (REJECTED_CONTAINER, stripUploads blob_name) := hrn
      by_cases hdel : env.deleteFails
      · simp [hdel, storeGet_put_same]
      · simp [hdel, storeGet_erase_ne _ _ _ hun.symm, storeGet_put_same]
    have hnostag :
        storeGet (move_blob env st cid blob_name REJECTED_CONTAINER).1
          (STAGING_CONTAINER, stripUploads blob_name) = none := by
      rw [hstore REJECTED_CONTAINER hconn hup]
      have husn : (UPLOADS_CONTAINER, stripUploads blob_name) ≠
          (STAGING_CONTAINER, stripUploads blob_name) :=
        fun hh => uploads_ne_staging (congrArg Prod.fst hh)
      by_cases hdel : env.deleteFails
      · simp [hdel, storeGet_put_ne _ _ _ _ hsrn.symm, hstag]
      · simp [hdel, storeGet_erase_ne _ _ _ husn.symm,
          storeGet_put_ne _ _ _ _ hsrn.symm, hstag]
    simp [he, hvalid, hput, hnostag]

/-- A well-formed one-line text payload used by the C1 witness. -/
def smallTxtContent : Content :=
  { length := 7
    csv := .noEncoding
    excel := .ok []
    json := .utf8Ok .other
    parquet := .err "x"
    txt := .utf8 "ola mundo" }

def c1BlobName : String := "uploads-clientes/cli-00123/2025/01/02/notas.txt"

/-- C1 witness: a healthy connected run on an empty store with a valid
7-byte text blob. -/
theorem c1_witness :
    (⟨true, false, false⟩ : StoreEnv).connected = true ∧
    (⟨true, false, false⟩ : StoreEnv).uploadFails = false ∧
    storeGet [] (STAGING_CONTAINER, stripUploads c1BlobName) = none ∧
    storeGet [] (REJECTED_CONTAINER, stripUploads c1BlobName) = none ∧
    (((process_uploaded_file ⟨true, false, false⟩ [] smallTxtContent 7
          c1BlobName 7 sampleTs none).1.valid = true ↔
        (process_uploaded_file ⟨true, false, false⟩ [] smallTxtContent 7
            c1BlobName 7 sampleTs none).1.errors = []) ∧
      (storeGet (process_uploaded_file ⟨true, false, false⟩ [] smallTxtContent 7
            c1BlobName 7 sampleTs none).2.1
          (STAGING_CONTAINER, stripUploads c1BlobName) = some 7 ↔
        (process_uploaded_file ⟨true, false, false⟩ [] smallTxtContent 7
            c1BlobName 7 sampleTs none).1.errors = []) ∧
      (storeGet (process_uploaded_file ⟨true, false, false⟩ [] smallTxtContent 7
            c1BlobName 7 sampleTs none).2.1
          (REJECTED_CONTAINER, stripUploads c1BlobName) = some 7 ↔
        (process_uploaded_file ⟨true, false, false⟩ [] smallTxtContent 7
            c1BlobName 7 sampleTs none).1.errors ≠ [])) :=
  ⟨rfl, rfl, rfl, rfl,
    c1_valid_iff_errors_empty_and_destination ⟨true, false, false⟩ []
      smallTxtContent 7 c1BlobName 7 sampleTs rfl rfl rfl rfl⟩

/-- C7: the notification emitter runs exactly once per processing run,
whatever the outcome; and when an unhandled exception interrupts the
pipeline, the partial report gains exactly one synthetic internal-error
entry and that report is the one emitted. -/
theorem c7_report_emitted_exactly_once (env : StoreEnv) (st : Store)
    (c : Content) (cid : Nat) (blob_name : String) (blob_length : Nat)
    (ts : String) (crash : Option (ValidationResult × String)) :
    (process_uploaded_file env st c cid blob_name blob_length ts
        crash).2.2.length = 1 ∧
    (∀ r0 msg, crash = some (r0, msg) →
      (process_uploaded_file env st c cid blob_name blob_length ts
          crash).2.2 =
        [{ r0 with errors := r0.errors ++ [internalErrMsg msg] }]) := by
  constructor
  · match crash with
    | none =>
        simp only [process_uploaded_file, save_validation_report]
        split <;> rfl
    | some (r0, msg) => rfl
  · rintro r0 msg rfl
    rfl

/-- C7 witness: a crashed run at a concrete partial report. -/
theorem c7_witness :
    (process_uploaded_file ⟨true, false, false⟩ [] smallTxtContent 7
        c1BlobName 7 sampleTs (some (blankTxtReport, "boom"))).2.2.length = 1 ∧
    (process_uploaded_file ⟨true, false, false⟩ [] smallTxtContent 7
        c1BlobName 7 sampleTs (some (blankTxtReport, "boom"))).2.2 =
      [{ blankTxtReport with
          errors := blankTxtReport.errors ++ [internalErrMsg "boom"] }] :=
  ⟨(c7_report_emitted_exactly_once ⟨true, false, false⟩ [] smallTxtContent 7
      c1BlobName 7 sampleTs (some (blankTxtReport, "boom"))).1,
    (c7_report_emitted_exactly_once ⟨true, false, false⟩ [] smallTxtContent 7
      c1BlobName 7 sampleTs (some (blankTxtReport, "boom"))).2 blankTxtReport
      "boom" rfl⟩
